import Mathlib

/-!
Shallow embedding of `src/main.py` (translation-assisted medical messaging log).

The SQLite table `messages` becomes a list of `Row`s kept in insertion order,
with the auto-increment id threaded through `DB.nextId`.  Audio payloads
(Python `bytes`) are modelled as `List Nat`.  Timestamps (`CURRENT_TIMESTAMP`
at insert) are modelled as `Nat` values supplied at each insert.  The hosted
text-generation service is abstracted as a function from a chat-message list
and an api key to the returned completion string; `get_llm_response` itself is
embedded separately over abstract transport outcomes for its two request paths.
-/

namespace NaoMed

/-- One chat message sent to the hosted model (`{"role": ..., "content": ...}`). -/
structure ChatMsg where
  role : String
  content : String
deriving DecidableEq

/-- Abstract view of the hosted text-generation service:
messages and api key in, completion text out. -/
abbrev LLM := List ChatMsg → String → String

/-- One row of the `messages` table (schema from `init_db`). -/
structure Row where
  id : Nat
  room_id : String
  role : String
  original_text : String
  translated_text : String
  target_lang : String
  has_audio : Bool
  audio_bytes : Option (List Nat)
  timestamp : Nat
deriving DecidableEq

/-- The SQLite database: rows in insertion order plus the auto-increment counter. -/
structure DB where
  rows : List Row
  nextId : Nat
deriving DecidableEq

def DB.empty : DB := { rows := [], nextId := 1 }

/-- `INSERT INTO messages (room_id, role, original_text, translated_text,
target_lang, has_audio, audio_bytes) VALUES (?, ?, ?, ?, ?, ?, ?)`:
the store assigns `id` and `timestamp`. -/
def DB.append (db : DB) (room_id role original_text translated_text target_lang : String)
    (has_audio : Bool) (audio_bytes : Option (List Nat)) (now : Nat) : DB :=
  let r : Row := { id := db.nextId, room_id := room_id, role := role,
                   original_text := original_text, translated_text := translated_text,
                   target_lang := target_lang, has_audio := has_audio,
                   audio_bytes := audio_bytes, timestamp := now }
  { rows := db.rows ++ [r], nextId := db.nextId + 1 }

/-- Stable insertion, placing `x` before the first later-timestamped element
and after all equal timestamps already placed later in the list. -/
def insertTS (x : Row) : List Row → List Row
  | [] => [x]
  | y :: ys => if x.timestamp ≤ y.timestamp then x :: y :: ys else y :: insertTS x ys

/-- Stable sort by `timestamp`, modelling `ORDER BY timestamp ASC` (SQLite
scans the table in rowid order, so insertion order is preserved among ties). -/
def sortTS : List Row → List Row
  | [] => []
  | x :: xs => insertTS x (sortTS xs)

/-- `SELECT * FROM messages WHERE room_id = ? ORDER BY timestamp ASC`
(the `df_msgs` read that drives the visible log). -/
def DB.listByRoom (db : DB) (room_id : String) : List Row :=
  sortTS (db.rows.filter fun r => r.room_id == room_id)

/-- Python truthiness of an optional text-input value (`if user_input:`). -/
def truthy : Option String → Bool
  | none => false
  | some s => if s = "" then false else true

deriving instance DecidableEq for Except

/-- Outcome of the raw-HTTP fallback call (`requests.post` result):
`status_code`, `text`, and the result of extracting
`response.json()["choices"][0]["message"]["content"]` (which may itself
raise on a malformed body). -/
structure HttpResp where
  status_code : Nat
  text : String
  extract : Except String String
deriving DecidableEq

/-- `get_llm_response(messages, api_key)` over abstract transport outcomes:
`primary` is the `InferenceClient.chat_completion` path (`.ok` = the returned
content, `.error` = the exception message), `secondary` the raw-HTTP fallback
(`.error` = an exception raised by `requests.post` or during JSON handling). -/
def get_llm_response (primary : Except String String) (secondary : Except String HttpResp)
    (messages : List ChatMsg) (api_key : String) : String :=
  match primary with
  | .ok content => content
  | .error _e =>
    match secondary with
    | .ok response =>
      if response.status_code = 200 then
        match response.extract with
        | .ok content => content
        | .error inner_e => "Critical Error: " ++ inner_e
      else if response.status_code = 402 then
        "Error: Free Tier Limit Reached (402). Try a new HF Token."
      else
        "API Error " ++ toString response.status_code ++ ": " ++ response.text
    | .error inner_e => "Critical Error: " ++ inner_e

/-- The f-string system instruction built inside `translate_text`. -/
def translateInstruction (source_role target_lang : String) : String :=
  "\n    You are a professional medical interpreter. Translate the " ++ source_role ++
  "\x27s input into " ++ target_lang ++
  ". \n    Use natural, spoken language that a normal person would use. \n    Avoid poetic, formal, or financial vocabulary (e.g., do not use \x27giravat\x27 for upset stomach).\n    Output ONLY the translation.\n    "

/-- `translate_text(text, source_role, target_lang, api_key)`, with the call to
`get_llm_response` abstracted as `llm`. -/
def translate_text (llm : LLM) (text source_role target_lang api_key : String) : String :=
  if text = "[Audio Message Attached]" then text
  else
    llm [{ role := "system", content := translateInstruction source_role target_lang },
         { role := "user", content := text }] api_key

/-- The system instruction used by `generate_summary`. -/
def summaryInstruction : String :=
  "Summarize the following Doctor-Patient conversation. Format output with headers: 1. Symptoms, 2. Diagnoses, 3. Medications, 4. Follow-up Actions."

/-- `generate_summary(history_text, api_key)`. -/
def generate_summary (llm : LLM) (history_text api_key : String) : String :=
  llm [{ role := "system", content := summaryInstruction },
       { role := "user", content := history_text }] api_key

/-- Observable outcome of the `Generate Medical Summary` button handler. -/
inductive SummaryOut where
  | noKey
  | noHistory
  | summary (s : String)
deriving DecidableEq

/-- The `Generate Medical Summary` button handler: checks the key, runs
`SELECT role, original_text FROM messages WHERE room_id = ?` (no ORDER BY, so
rows arrive in stored rowid order), joins the rows as `role: original_text`
lines, and calls `generate_summary`. -/
def summaryClick (llm : LLM) (hf_api_key room_id : String) (db : DB) : SummaryOut :=
  if hf_api_key = "" then .noKey
  else
    let df := db.rows.filter fun r => r.room_id == room_id
    if df.isEmpty = true then .noHistory
    else
      let full_text := String.intercalate "\n" (df.map fun r => r.role ++ ": " ++ r.original_text)
      .summary (generate_summary llm full_text hf_api_key)

/-- Streamlit session state used by the logic handler. -/
structure SessionState where
  role : String
  last_processed_audio : Option (List Nat)
deriving DecidableEq

/-- How a single run of the input logic handler ended. -/
inductive RunResult where
  | noInput
  | configError
  | saved
  | skipped
  | storageError
deriving DecidableEq

/-- Result of one run of the logic handler: the session state, the database,
and how the run ended. -/
structure HandlerOut where
  state : SessionState
  db : DB
  result : RunResult
deriving DecidableEq

/-- The `LOGIC HANDLER` block (lines 222-265 of `main.py`) as a pure state
transformer.  `insertOk` models whether the SQLite INSERT/commit succeeds
(`false` = the insert raises, aborting the run after translation).  The audio
step, text step and save step mirror the three numbered sections of the
source; session state is only written in the audio step. -/
def logicHandler (llm : LLM) (insertOk : Bool) (hf_api_key room_id target_lang : String)
    (st : SessionState) (db : DB)
    (user_input : Option String) (audio_value : Option (List Nat)) (now : Nat) : HandlerOut :=
  if truthy user_input = true ∨ audio_value.isSome = true then
    if hf_api_key = "" then { state := st, db := db, result := .configError }
    else
      let step1 : SessionState × String × Option (List Nat) × Bool × Bool :=
        match audio_value with
        | some current_audio_bytes =>
          if st.last_processed_audio ≠ some current_audio_bytes then
            ({ st with last_processed_audio := some current_audio_bytes },
             if truthy user_input = true then "" else "[Audio Message Attached]",
             some current_audio_bytes, true, true)
          else
            (st, "", none, false, false)
        | none => (st, "", none, false, false)
      let st1 := step1.1
      let text1 := step1.2.1
      let audio_data := step1.2.2.1
      let has_audio_flag := step1.2.2.2.1
      let save1 := step1.2.2.2.2
      let step2 : String × Bool :=
        match user_input with
        | some s => if s = "" then (text1, save1) else (s, true)
        | none => (text1, save1)
      let current_text := step2.1
      let should_save := step2.2
      if should_save = true ∧ current_text ≠ "" then
        let translated := translate_text llm current_text st1.role target_lang hf_api_key
        if insertOk = true then
          { state := st1,
            db := db.append room_id st1.role current_text translated target_lang
              has_audio_flag audio_data now,
            result := .saved }
        else { state := st1, db := db, result := .storageError }
      else { state := st1, db := db, result := .skipped }
  else { state := st, db := db, result := .noInput }

/-- An abstract append request: the seven caller-supplied fields of
`DB.append` plus the clock value the store will stamp on the row. -/
structure AppendReq where
  room_id : String
  role : String
  original_text : String
  translated_text : String
  target_lang : String
  has_audio : Bool
  audio_bytes : Option (List Nat)
  now : Nat
deriving DecidableEq

/-- Run a sequence of appends against the store. -/
def runAppends (db : DB) : List AppendReq → DB
  | [] => db
  | q :: qs =>
    runAppends (db.append q.room_id q.role q.original_text q.translated_text
      q.target_lang q.has_audio q.audio_bytes q.now) qs

/-- Rows are pairwise ordered: strictly increasing ids and non-decreasing
timestamps in list (= insertion) order. -/
def Chronological (l : List Row) : Prop :=
  l.Pairwise fun a b => a.id < b.id ∧ a.timestamp ≤ b.timestamp

/-- The ordering the spec requires of a room listing: non-decreasing
timestamps, with ids strictly increasing on timestamp ties. -/
def msgOrder (a b : Row) : Prop :=
  a.timestamp ≤ b.timestamp ∧ (a.timestamp = b.timestamp → a.id < b.id)

lemma mem_insertTS (x a : Row) (l : List Row) : a ∈ insertTS x l ↔ a = x ∨ a ∈ l := by
  induction l with
  | nil => simp [insertTS]
  | cons y ys ih =>
    by_cases h : x.timestamp ≤ y.timestamp
    · simp [insertTS, h]
    · simp [insertTS, h, ih]
      tauto

lemma mem_sortTS (a : Row) (l : List Row) : a ∈ sortTS l ↔ a ∈ l := by
  induction l with
  | nil => simp [sortTS]
  | cons x xs ih => simp [sortTS, mem_insertTS, ih]

lemma sortTS_eq_of_sorted (l : List Row)
    (h : l.Pairwise fun a b => a.timestamp ≤ b.timestamp) : sortTS l = l := by
  induction l with
  | nil => rfl
  | cons x xs ih =>
    have hp := List.pairwise_cons.mp h
    rw [sortTS, ih hp.2]
    cases xs with
    | nil => rfl
    | cons y ys =>
      have : x.timestamp ≤ y.timestamp := hp.1 y (by simp)
      simp [insertTS, this]

lemma runAppends_chronological (qs : List AppendReq) (db : DB)
    (h1 : db.rows.Pairwise fun a b => a.id < b.id)
    (h2 : ∀ r ∈ db.rows, r.id < db.nextId)
    (h3 : List.Chain' (· ≤ ·) (db.rows.map Row.timestamp ++ qs.map AppendReq.now)) :
    Chronological (runAppends db qs).rows := by
  induction qs generalizing db with
  | nil =>
    simp only [runAppends]
    simp only [List.map_nil, List.append_nil] at h3
    have hts : (db.rows.map Row.timestamp).Pairwise (· ≤ ·) :=
      List.chain'_iff_pairwise.mp h3
    rw [List.pairwise_map] at hts
    exact h1.and hts
  | cons q qs ih =>
    simp only [runAppends]
    apply ih
    · rw [DB.append, List.pairwise_append]
      refine ⟨h1, by simp, ?_⟩
      intro a ha b hb
      simp only [List.mem_singleton] at hb
      subst hb
      exact h2 a ha
    · intro r hr
      rw [DB.append] at hr
      simp only [List.mem_append, List.mem_singleton] at hr
      rcases hr with hr | hr
      · exact Nat.lt_succ_of_lt (h2 r hr)
      · subst hr
        exact Nat.lt_succ_self _
    · rw [DB.append]
      simp only [List.map_append, List.map_cons, List.map_map] at h3 ⊢
      simpa [List.append_assoc] using h3

lemma chronological_listByRoom (db : DB) (room : String) (h : Chronological db.rows) :
    Chronological (db.listByRoom room) ∧
      db.listByRoom room = db.rows.filter fun r => r.room_id == room := by
  have hf : Chronological (db.rows.filter fun r => r.room_id == room) :=
    h.sublist (List.filter_sublist db.rows)
  have hts : (db.rows.filter fun r => r.room_id == room).Pairwise
      (fun a b => a.timestamp ≤ b.timestamp) := hf.imp fun hab => hab.2
  have heq : db.listByRoom room = db.rows.filter fun r => r.room_id == room :=
    sortTS_eq_of_sorted _ hts
  exact ⟨heq ▸ hf, heq⟩

/-- C1: for every sequence of appends (made with the store's non-decreasing
clock), the room-scoped read `listByRoom` returns its rows in non-decreasing
timestamp order, and among rows with equal timestamps the auto-increment `id`
is strictly increasing, so `id` is the tie-break. -/
theorem listByRoom_ordered (qs : List AppendReq) (room : String)
    (hclock : List.Chain' (· ≤ ·) (qs.map AppendReq.now)) :
    ((runAppends DB.empty qs).listByRoom room).Pairwise msgOrder := by
  have hc : Chronological (runAppends DB.empty qs).rows :=
    runAppends_chronological qs DB.empty (by simp [DB.empty]) (by simp [DB.empty])
      (by simpa [DB.empty] using hclock)
  have h := (chronological_listByRoom _ room hc).1
  exact h.imp fun hab => ⟨hab.2, fun _ => hab.1⟩

theorem listByRoom_ordered_witness :
    List.Chain' (· ≤ ·)
      ([{ room_id := "Room-1", role := "Doctor", original_text := "My stomach hurts",
          translated_text := "Me duele el estomago", target_lang := "Spanish",
          has_audio := false, audio_bytes := none, now := 5 },
        { room_id := "Room-1", role := "Patient", original_text := "ok",
          translated_text := "vale", target_lang := "Spanish",
          has_audio := false, audio_bytes := none, now := 5 }].map AppendReq.now) ∧
    ((runAppends DB.empty
      [{ room_id := "Room-1", role := "Doctor", original_text := "My stomach hurts",
         translated_text := "Me duele el estomago", target_lang := "Spanish",
         has_audio := false, audio_bytes := none, now := 5 },
       { room_id := "Room-1", role := "Patient", original_text := "ok",
         translated_text := "vale", target_lang := "Spanish",
         has_audio := false, audio_bytes := none, now := 5 }]).listByRoom "Room-1").Pairwise
      msgOrder :=
  ⟨by simp [List.chain'_cons], listByRoom_ordered _ "Room-1" (by simp [List.chain'_cons])⟩

/-- C7: `listByRoom R` returns exactly the rows stored with `room_id = R`:
a row is in the room listing iff it is in the table and carries that room id,
so no row appended under a different room identifier ever appears. -/
theorem listByRoom_room_isolation (db : DB) (room : String) (r : Row) :
    r ∈ db.listByRoom room ↔ r ∈ db.rows ∧ r.room_id = room := by
  simp [DB.listByRoom, mem_sortTS, List.mem_filter]

/-- C8: translating the exact sentinel text returns it unchanged, for every
speaker role, target language and credential; the result does not depend on
the underlying text-generation service `llm`, so the service is not consulted. -/
theorem sentinel_passthrough (llm : LLM) (source_role target_lang api_key : String) :
    translate_text llm "[Audio Message Attached]" source_role target_lang api_key =
      "[Audio Message Attached]" := by
  simp [translate_text]

lemma quota_ne_api (n : Nat) (t : String) :
    "Error: Free Tier Limit Reached (402). Try a new HF Token." ≠
      "API Error " ++ toString n ++ ": " ++ t := by
  intro h
  have h2 := congrArg (fun s => s.data.head?) h
  have hA : ("API Error " ++ toString n ++ ": " ++ t).data.head? = some 'A' := rfl
  simp only [hA] at h2
  exact absurd h2 (by decide)

lemma quota_ne_critical (i : String) :
    "Error: Free Tier Limit Reached (402). Try a new HF Token." ≠ "Critical Error: " ++ i := by
  intro h
  have h2 := congrArg (fun s => s.data.head?) h
  have hC : ("Critical Error: " ++ i).data.head? = some 'C' := rfl
  simp only [hC] at h2
  exact absurd h2 (by decide)

lemma critical_ne_api (i : String) (n : Nat) (t : String) :
    "Critical Error: " ++ i ≠ "API Error " ++ toString n ++ ": " ++ t := by
  intro h
  have h2 := congrArg (fun s => s.data.head?) h
  have hC : ("Critical Error: " ++ i).data.head? = some 'C' := rfl
  have hA : ("API Error " ++ toString n ++ ": " ++ t).data.head? = some 'A' := rfl
  simp only [hC, hA] at h2
  exact absurd h2 (by decide)

/-- C4: `get_llm_response` is a total function into strings — every failure
becomes a string result, never an exception.  On primary-path success the
content is returned and the fallback is irrelevant; on a primary-path
exception the result is determined by the secondary raw-HTTP attempt: its
200-body content, a fixed quota message on 402, `API Error <code>: <text>` on
other statuses, and `Critical Error: <detail>` when the fallback itself
raises.  The three failure shapes are pairwise distinct strings. -/
theorem get_llm_response_total (primary : Except String String)
    (secondary : Except String HttpResp) (messages : List ChatMsg) (api_key : String) :
    (∀ c, primary = .ok c →
      get_llm_response primary secondary messages api_key = c) ∧
    (∀ e, primary = .error e →
      (∀ i, secondary = .error i →
        get_llm_response primary secondary messages api_key = "Critical Error: " ++ i) ∧
      (∀ r, secondary = .ok r →
        (r.status_code = 200 →
          (∀ c, r.extract = .ok c →
            get_llm_response primary secondary messages api_key = c) ∧
          (∀ i, r.extract = .error i →
            get_llm_response primary secondary messages api_key = "Critical Error: " ++ i)) ∧
        (r.status_code = 402 →
          get_llm_response primary secondary messages api_key =
            "Error: Free Tier Limit Reached (402). Try a new HF Token.") ∧
        (r.status_code ≠ 200 → r.status_code ≠ 402 →
          get_llm_response primary secondary messages api_key =
            "API Error " ++ toString r.status_code ++ ": " ++ r.text))) ∧
    (∀ (n : Nat) (t i : String),
      "Error: Free Tier Limit Reached (402). Try a new HF Token." ≠
        "API Error " ++ toString n ++ ": " ++ t ∧
      "Error: Free Tier Limit Reached (402). Try a new HF Token." ≠ "Critical Error: " ++ i ∧
      "Critical Error: " ++ i ≠ "API Error " ++ toString n ++ ": " ++ t) := by
  refine ⟨?_, ?_, fun n t i => ⟨quota_ne_api n t, quota_ne_critical i, critical_ne_api i n t⟩⟩
  · intro c hc
    subst hc
    rfl
  · intro e he
    subst he
    refine ⟨?_, ?_⟩
    · intro i hi
      subst hi
      rfl
    · intro r hr
      subst hr
      refine ⟨?_, ?_, ?_⟩
      · intro h200
        refine ⟨?_, ?_⟩
        · intro c hc
          simp [get_llm_response, h200, hc]
        · intro i hi
          simp [get_llm_response, h200, hi]
      · intro h402
        have : r.status_code ≠ 200 := by omega
        simp [get_llm_response, this, h402]
      · intro h200 h402
        simp [get_llm_response, h200, h402]

theorem get_llm_response_total_witness :
    get_llm_response (Except.ok "hola") (Except.error "down") [] "key" = "hola" ∧
    get_llm_response (Except.error "boom")
      (Except.ok { status_code := 402, text := "t", extract := Except.error "j" }) [] "key" =
      "Error: Free Tier Limit Reached (402). Try a new HF Token." ∧
    get_llm_response (Except.error "boom") (Except.error "down") [] "key" =
      "Critical Error: " ++ "down" ∧
    get_llm_response (Except.error "boom")
      (Except.ok { status_code := 500, text := "oops", extract := Except.error "j" }) [] "key" =
      "API Error " ++ toString (500 : Nat) ++ ": " ++ "oops" :=
  ⟨(get_llm_response_total (Except.ok "hola") (Except.error "down") [] "key").1 "hola" rfl,
   (((get_llm_response_total (Except.error "boom")
      (Except.ok { status_code := 402, text := "t", extract := Except.error "j" }) [] "key").2.1
        "boom" rfl).2 _ rfl).2.1 rfl,
   ((get_llm_response_total (Except.error "boom") (Except.error "down") [] "key").2.1
      "boom" rfl).1 "down" rfl,
   (((get_llm_response_total (Except.error "boom")
      (Except.ok { status_code := 500, text := "oops", extract := Except.error "j" }) [] "key").2.1
        "boom" rfl).2 _ rfl).2.2 (by decide) (by decide)⟩

/-- C5: when a summary is requested with a credential for a room whose history
is non-empty, the summary oracle receives exactly two chat messages: the fixed
four-section instruction (Symptoms, Diagnoses, Medications, Follow-up Actions)
and the room's transcript rendered one `role: original_text` line per row; the
rendered rows are the room's full history in ascending timestamp/id order
(they coincide with the ordered room read `listByRoom`). -/
theorem summary_prompt_ordered (llm : LLM) (hf_api_key room_id : String) (db : DB)
    (hkey : hf_api_key ≠ "")
    (hchron : Chronological db.rows)
    (hne : (db.rows.filter fun r => r.room_id == room_id) ≠ []) :
    summaryClick llm hf_api_key room_id db =
      .summary (llm
        [{ role := "system",
           content := "Summarize the following Doctor-Patient conversation. Format output with headers: 1. Symptoms, 2. Diagnoses, 3. Medications, 4. Follow-up Actions." },
         { role := "user",
           content := String.intercalate "\n"
            ((db.rows.filter fun r => r.room_id == room_id).map
              fun r => r.role ++ ": " ++ r.original_text) }] hf_api_key) ∧
    (db.rows.filter fun r => r.room_id == room_id).Pairwise msgOrder ∧
    db.rows.filter (fun r => r.room_id == room_id) = db.listByRoom room_id := by
  obtain ⟨hc, heq⟩ := chronological_listByRoom db room_id hchron
  refine ⟨?_, ?_, heq.symm⟩
  · have hemp : (db.rows.filter fun r => r.room_id == room_id).isEmpty = false := by
      cases hF : db.rows.filter fun r => r.room_id == room_id with
      | nil => exact absurd hF hne
      | cons a l => rfl
    simp [summaryClick, generate_summary, summaryInstruction, hkey, hemp]
  · rw [heq] at hc
    exact hc.imp fun hab => ⟨hab.2, fun _ => hab.1⟩

lemma truthy_false_cases (u : Option String) (h : truthy u = false) :
    u = none ∨ u = some "" := by
  cases u with
  | none => exact Or.inl rfl
  | some s =>
    by_cases hs : s = ""
    · exact Or.inr (by rw [hs])
    · simp [truthy, hs] at h

/-- C6: the controller's decision table, for any input event that passed the
credential check.  With typed text and genuinely new audio the typed text is
persisted with `has_audio = true`; with typed text and no new audio (absent or
duplicate) the typed text is persisted with `has_audio = false`; with no typed
text and new audio the sentinel `[Audio Message Attached]` is persisted with
`has_audio = true`; with no typed text and no new audio nothing is persisted. -/
theorem controller_decision_table (llm : LLM) (hf_api_key room_id target_lang : String)
    (hkey : hf_api_key ≠ "") (st : SessionState) (db : DB)
    (u : Option String) (audio : Option (List Nat)) (now : Nat) :
    (∀ s b, u = some s → s ≠ "" → audio = some b → st.last_processed_audio ≠ some b →
      logicHandler llm true hf_api_key room_id target_lang st db u audio now =
        { state := { st with last_processed_audio := some b },
          db := db.append room_id st.role s
            (translate_text llm s st.role target_lang hf_api_key) target_lang true (some b) now,
          result := .saved }) ∧
    (∀ s, u = some s → s ≠ "" →
      (audio = none ∨ ∃ b, audio = some b ∧ st.last_processed_audio = some b) →
      logicHandler llm true hf_api_key room_id target_lang st db u audio now =
        { state := st,
          db := db.append room_id st.role s
            (translate_text llm s st.role target_lang hf_api_key) target_lang false none now,
          result := .saved }) ∧
    (∀ b, truthy u = false → audio = some b → st.last_processed_audio ≠ some b →
      logicHandler llm true hf_api_key room_id target_lang st db u audio now =
        { state := { st with last_processed_audio := some b },
          db := db.append room_id st.role "[Audio Message Attached]"
            "[Audio Message Attached]" target_lang true (some b) now,
          result := .saved }) ∧
    (truthy u = false →
      (audio = none ∨ ∃ b, audio = some b ∧ st.last_processed_audio = some b) →
      (logicHandler llm true hf_api_key room_id target_lang st db u audio now).db = db) := by
  refine ⟨?_, ?_, ?_, ?_⟩
  · intro s b hu hs ha hb
    subst hu
    subst ha
    simp [logicHandler, truthy, hs, hb, hkey]
  · intro s hu hs ha
    subst hu
    rcases ha with ha | ⟨b, ha, hb⟩
    · subst ha
      simp [logicHandler, truthy, hs, hkey]
    · subst ha
      simp [logicHandler, truthy, hs, hb, hkey]
  · intro b hu ha hb
    subst ha
    rcases truthy_false_cases u hu with h | h
    · subst h
      simp [logicHandler, truthy, hb, hkey, translate_text]
    · subst h
      simp [logicHandler, truthy, hb, hkey, translate_text]
  · intro hu ha
    rcases truthy_false_cases u hu with h | h <;> subst h <;>
        rcases ha with ha | ⟨b, ha, hb⟩ <;> subst ha
    · simp [logicHandler, truthy, hkey]
    · simp [logicHandler, truthy, hkey, hb]
    · simp [logicHandler, truthy, hkey]
    · simp [logicHandler, truthy, hkey, hb]

/-- C2: audio dedup is idempotent.  A first candidate input with fresh audio
bytes and no typed text appends exactly one sentinel row; offering the
byte-identical audio again (still with no typed text) leaves the store and the
session state untouched and ends as `skipped`, for every choice of oracle on
the second run — so the oracle is not consulted and no second row appears. -/
theorem audio_dedup_idempotent (llm : LLM) (hf_api_key room_id target_lang : String)
    (hkey : hf_api_key ≠ "") (st : SessionState) (db : DB) (bytes : List Nat)
    (u₁ u₂ : Option String) (hu₁ : truthy u₁ = false) (hu₂ : truthy u₂ = false)
    (hb : st.last_processed_audio ≠ some bytes) (t₁ t₂ : Nat) :
    (logicHandler llm true hf_api_key room_id target_lang st db u₁ (some bytes) t₁).db.rows =
      db.rows ++
        [{ id := db.nextId, room_id := room_id, role := st.role,
           original_text := "[Audio Message Attached]",
           translated_text := "[Audio Message Attached]", target_lang := target_lang,
           has_audio := true, audio_bytes := some bytes, timestamp := t₁ }] ∧
    (∀ llm₃ : LLM,
      logicHandler llm₃ true hf_api_key room_id target_lang
        (logicHandler llm true hf_api_key room_id target_lang st db u₁ (some bytes) t₁).state
        (logicHandler llm true hf_api_key room_id target_lang st db u₁ (some bytes) t₁).db
        u₂ (some bytes) t₂ =
      { state :=
          (logicHandler llm true hf_api_key room_id target_lang st db u₁ (some bytes) t₁).state,
        db := (logicHandler llm true hf_api_key room_id target_lang st db u₁ (some bytes) t₁).db,
        result := .skipped }) := by
  have h1 : logicHandler llm true hf_api_key room_id target_lang st db u₁ (some bytes) t₁ =
      { state := { st with last_processed_audio := some bytes },
        db := DB.append db room_id st.role "[Audio Message Attached]"
          "[Audio Message Attached]" target_lang true (some bytes) t₁,
        result := .saved } := by
    rcases truthy_false_cases u₁ hu₁ with h | h <;> subst h <;>
      simp [logicHandler, truthy, hb, hkey, translate_text]
  constructor
  · rw [h1]
    rfl
  · intro llm₃
    rw [h1]
    rcases truthy_false_cases u₂ hu₂ with h | h <;> subst h <;>
      simp [logicHandler, truthy, hkey]

theorem audio_dedup_idempotent_witness :
    (logicHandler (fun _ _ => "T") true "hf" "Room-1" "Spanish"
        { role := "Patient", last_processed_audio := none }
        { rows := [], nextId := 1 } none (some [1, 2]) 3).db.rows =
      [] ++
        [{ id := 1, room_id := "Room-1", role := "Patient",
           original_text := "[Audio Message Attached]",
           translated_text := "[Audio Message Attached]", target_lang := "Spanish",
           has_audio := true, audio_bytes := some [1, 2], timestamp := 3 }] ∧
    (∀ llm₃ : LLM,
      logicHandler llm₃ true "hf" "Room-1" "Spanish"
        (logicHandler (fun _ _ => "T") true "hf" "Room-1" "Spanish"
          { role := "Patient", last_processed_audio := none }
          { rows := [], nextId := 1 } none (some [1, 2]) 3).state
        (logicHandler (fun _ _ => "T") true "hf" "Room-1" "Spanish"
          { role := "Patient", last_processed_audio := none }
          { rows := [], nextId := 1 } none (some [1, 2]) 3).db
        none (some [1, 2]) 4 =
      { state :=
          (logicHandler (fun _ _ => "T") true "hf" "Room-1" "Spanish"
            { role := "Patient", last_processed_audio := none }
            { rows := [], nextId := 1 } none (some [1, 2]) 3).state,
        db := (logicHandler (fun _ _ => "T") true "hf" "Room-1" "Spanish"
          { role := "Patient", last_processed_audio := none }
          { rows := [], nextId := 1 } none (some [1, 2]) 3).db,
        result := .skipped }) :=
  audio_dedup_idempotent (fun _ _ => "T") "hf" "Room-1" "Spanish" (by decide)
    { role := "Patient", last_processed_audio := none } { rows := [], nextId := 1 }
    [1, 2] none none rfl rfl (by decide) 3 4

/-- C3: an oracle failure never prevents persistence.  If the translation
oracle yields any error string `e` for a typed, persistable input, the input
logic handler still inserts exactly one row, carrying the typed text as
`original_text` and the error string `e` as `translated_text`; the run ends
as `saved`.  The inserted row is built only from the completed translation
result, so no row without a translation value can exist. -/
theorem oracle_error_still_persisted (e hf_api_key room_id target_lang : String)
    (hkey : hf_api_key ≠ "") (st : SessionState) (db : DB) (s : String)
    (hs : s ≠ "") (hsent : s ≠ "[Audio Message Attached]")
    (audio : Option (List Nat)) (t : Nat) :
    (logicHandler (fun _ _ => e) true hf_api_key room_id target_lang st db
        (some s) audio t).result = .saved ∧
    ∃ r : Row,
      (logicHandler (fun _ _ => e) true hf_api_key room_id target_lang st db
          (some s) audio t).db.rows = db.rows ++ [r] ∧
      r.original_text = s ∧ r.translated_text = e := by
  cases audio with
  | none =>
    refine ⟨?_, ⟨{ id := db.nextId, room_id := room_id, role := st.role, original_text := s, translated_text := e, target_lang := target_lang, has_audio := false, audio_bytes := none, timestamp := t }, ?_, rfl, rfl⟩⟩
    · simp [logicHandler, truthy, hs, hkey, translate_text, hsent]
    · simp [logicHandler, truthy, hs, hkey, translate_text, hsent, DB.append]
  | some b =>
    by_cases hb : st.last_processed_audio = some b
    · refine ⟨?_, ⟨{ id := db.nextId, room_id := room_id, role := st.role, original_text := s, translated_text := e, target_lang := target_lang, has_audio := false, audio_bytes := none, timestamp := t }, ?_, rfl, rfl⟩⟩
      · simp [logicHandler, truthy, hs, hkey, translate_text, hsent, hb]
      · simp [logicHandler, truthy, hs, hkey, translate_text, hsent, hb, DB.append]
    · refine ⟨?_, ⟨{ id := db.nextId, room_id := room_id, role := st.role, original_text := s, translated_text := e, target_lang := target_lang, has_audio := true, audio_bytes := some b, timestamp := t }, ?_, rfl, rfl⟩⟩
      · simp [logicHandler, truthy, hs, hkey, translate_text, hsent, hb]
      · simp [logicHandler, truthy, hs, hkey, translate_text, hsent, hb, DB.append]

theorem oracle_error_still_persisted_witness :
    (logicHandler (fun _ _ => "Critical Error: timeout") true "hf" "Room-1" "Spanish"
        { role := "Doctor", last_processed_audio := none }
        { rows := [], nextId := 1 } (some "My stomach hurts") none 9).result = .saved ∧
    ∃ r : Row,
      (logicHandler (fun _ _ => "Critical Error: timeout") true "hf" "Room-1" "Spanish"
          { role := "Doctor", last_processed_audio := none }
          { rows := [], nextId := 1 } (some "My stomach hurts") none 9).db.rows = [] ++ [r] ∧
      r.original_text = "My stomach hurts" ∧ r.translated_text = "Critical Error: timeout" :=
  oracle_error_still_persisted "Critical Error: timeout" "hf" "Room-1" "Spanish" (by decide)
    { role := "Doctor", last_processed_audio := none } { rows := [], nextId := 1 }
    "My stomach hurts" (by decide) (by decide) none 9

theorem summary_prompt_ordered_witness :
    ("hf" ≠ "") ∧
    Chronological ({ rows := [{ id := 1, room_id := "Room-1", role := "Doctor", original_text := "hi", translated_text := "hola", target_lang := "Spanish", has_audio := false, audio_bytes := none, timestamp := 2 }], nextId := 2 } : DB).rows ∧
    (({ rows := [{ id := 1, room_id := "Room-1", role := "Doctor", original_text := "hi", translated_text := "hola", target_lang := "Spanish", has_audio := false, audio_bytes := none, timestamp := 2 }], nextId := 2 } : DB).rows.filter
        fun r => r.room_id == "Room-1") ≠ [] ∧
    summaryClick (fun _ _ => "S") "hf" "Room-1"
        { rows := [{ id := 1, room_id := "Room-1", role := "Doctor", original_text := "hi", translated_text := "hola", target_lang := "Spanish", has_audio := false, audio_bytes := none, timestamp := 2 }], nextId := 2 } =
      .summary ((fun _ _ => "S" : LLM)
        [{ role := "system",
           content := "Summarize the following Doctor-Patient conversation. Format output with headers: 1. Symptoms, 2. Diagnoses, 3. Medications, 4. Follow-up Actions." },
         { role := "user",
           content := String.intercalate "\n"
            ((({ rows := [{ id := 1, room_id := "Room-1", role := "Doctor", original_text := "hi", translated_text := "hola", target_lang := "Spanish", has_audio := false, audio_bytes := none, timestamp := 2 }], nextId := 2 } : DB).rows.filter
                fun r => r.room_id == "Room-1").map
              fun r => r.role ++ ": " ++ r.original_text) }] "hf") :=
  ⟨by decide, by simp [Chronological], by decide,
    (summary_prompt_ordered (fun _ _ => "S") "hf" "Room-1"
      { rows := [{ id := 1, room_id := "Room-1", role := "Doctor", original_text := "hi", translated_text := "hola", target_lang := "Spanish", has_audio := false, audio_bytes := none, timestamp := 2 }], nextId := 2 }
      (by decide) (by simp [Chronological]) (by decide)).1⟩

theorem controller_decision_table_witness :
    ("hf" ≠ "") ∧
    logicHandler (fun _ _ => "T") true "hf" "Room-1" "Spanish"
        { role := "Doctor", last_processed_audio := none }
        { rows := [], nextId := 1 } (some "hi") (some [1, 2]) 7 =
      { state := { role := "Doctor", last_processed_audio := some [1, 2] },
        db := DB.append { rows := [], nextId := 1 } "Room-1" "Doctor" "hi"
          (translate_text (fun _ _ => "T") "hi" "Doctor" "Spanish" "hf") "Spanish" true
          (some [1, 2]) 7,
        result := .saved } :=
  ⟨by decide,
    (controller_decision_table (fun _ _ => "T") "hf" "Room-1" "Spanish" (by decide)
      { role := "Doctor", last_processed_audio := none } { rows := [], nextId := 1 }
      (some "hi") (some [1, 2]) 7).1 "hi" [1, 2] rfl (by decide) rfl (by decide)⟩

/-- C9: with no credential available, any input event (typed text and/or
audio) is rejected with a configuration error before anything else happens:
the store is untouched, the session state is untouched (so the session
continues and only this input event is lost), and the outcome does not depend
on the oracle or on whether the insert could have succeeded — neither is
reached. -/
theorem missing_key_rejected (llm : LLM) (insertOk : Bool) (room_id target_lang : String)
    (st : SessionState) (db : DB) (u : Option String) (audio : Option (List Nat)) (t : Nat)
    (hin : truthy u = true ∨ audio.isSome = true) :
    logicHandler llm insertOk "" room_id target_lang st db u audio t =
      { state := st, db := db, result := .configError } ∧
    ∀ (llm₂ : LLM) (insertOk₂ : Bool),
      logicHandler llm₂ insertOk₂ "" room_id target_lang st db u audio t =
        logicHandler llm insertOk "" room_id target_lang st db u audio t := by
  have h : ∀ (llm₃ : LLM) (ok₃ : Bool),
      logicHandler llm₃ ok₃ "" room_id target_lang st db u audio t =
        { state := st, db := db, result := .configError } := by
    intro llm₃ ok₃
    simp only [logicHandler]
    rw [if_pos hin]
    simp
  exact ⟨h llm insertOk, fun llm₂ ok₂ => (h llm₂ ok₂).trans (h llm insertOk).symm⟩

theorem missing_key_rejected_witness :
    (truthy (some "hi") = true ∨ (some [1, 2] : Option (List Nat)).isSome = true) ∧
    logicHandler (fun _ _ => "T") true "" "Room-1" "Spanish"
        { role := "Doctor", last_processed_audio := none }
        { rows := [], nextId := 1 } (some "hi") (some [1, 2]) 7 =
      { state := { role := "Doctor", last_processed_audio := none },
        db := { rows := [], nextId := 1 }, result := .configError } :=
  ⟨Or.inl rfl,
    (missing_key_rejected (fun _ _ => "T") true "Room-1" "Spanish"
      { role := "Doctor", last_processed_audio := none } { rows := [], nextId := 1 }
      (some "hi") (some [1, 2]) 7 (Or.inl rfl)).1⟩

/-- C10: on genuinely new audio bytes the session fingerprint is set to those
bytes no matter how the rest of the run goes: it equals the new bytes even
when the insert fails (in which case the store is unchanged, yet a re-offer
of the same bytes is already suppressed), and any freshly written row with
`has_audio = true` carries exactly the fingerprinted bytes as its payload. -/
theorem fingerprint_updated_first (llm : LLM) (insertOk : Bool)
    (hf_api_key room_id target_lang : String) (hkey : hf_api_key ≠ "")
    (st : SessionState) (db : DB) (u : Option String) (b : List Nat)
    (hb : st.last_processed_audio ≠ some b) (t : Nat) :
    (logicHandler llm insertOk hf_api_key room_id target_lang st db
        u (some b) t).state.last_processed_audio = some b ∧
    (insertOk = false →
      (logicHandler llm insertOk hf_api_key room_id target_lang st db u (some b) t).db = db) ∧
    (∀ r : Row,
      r ∈ (logicHandler llm insertOk hf_api_key room_id target_lang st db
          u (some b) t).db.rows →
      r ∉ db.rows → r.has_audio = true → r.audio_bytes = some b) := by
  by_cases htu : truthy u = true
  · obtain ⟨s, hu, hs⟩ : ∃ s, u = some s ∧ s ≠ "" := by
      cases u with
      | none => simp [truthy] at htu
      | some s =>
        refine ⟨s, rfl, ?_⟩
        intro hs
        rw [hs] at htu
        simp [truthy] at htu
    subst hu
    cases insertOk with
    | true =>
      have h1 : logicHandler llm true hf_api_key room_id target_lang st db (some s) (some b) t =
          { state := { st with last_processed_audio := some b },
            db := DB.append db room_id st.role s
              (translate_text llm s st.role target_lang hf_api_key) target_lang true (some b) t,
            result := .saved } := by
        simp [logicHandler, truthy, hs, hb, hkey]
      rw [h1]
      refine ⟨rfl, ?_, ?_⟩
      · intro h
        simp at h
      intro r hr hnot _hha
      simp only [DB.append, List.mem_append, List.mem_singleton] at hr
      rcases hr with hr | hr
      · exact absurd hr hnot
      · rw [hr]
    | false =>
      have h1 : logicHandler llm false hf_api_key room_id target_lang st db (some s) (some b) t =
          { state := { st with last_processed_audio := some b },
            db := db, result := .storageError } := by
        simp [logicHandler, truthy, hs, hb, hkey]
      rw [h1]
      exact ⟨rfl, fun _ => rfl, fun r hr hnot _ => absurd hr hnot⟩
  · have hu : truthy u = false := by
      cases h : truthy u
      · rfl
      · exact absurd h htu
    cases insertOk with
    | true =>
      have h1 : logicHandler llm true hf_api_key room_id target_lang st db u (some b) t =
          { state := { st with last_processed_audio := some b },
            db := DB.append db room_id st.role "[Audio Message Attached]"
              "[Audio Message Attached]" target_lang true (some b) t,
            result := .saved } := by
        rcases truthy_false_cases u hu with h | h <;> subst h <;>
          simp [logicHandler, truthy, hb, hkey, translate_text]
      rw [h1]
      refine ⟨rfl, ?_, ?_⟩
      · intro h
        simp at h
      intro r hr hnot _hha
      simp only [DB.append, List.mem_append, List.mem_singleton] at hr
      rcases hr with hr | hr
      · exact absurd hr hnot
      · rw [hr]
    | false =>
      have h1 : logicHandler llm false hf_api_key room_id target_lang st db u (some b) t =
          { state := { st with last_processed_audio := some b },
            db := db, result := .storageError } := by
        rcases truthy_false_cases u hu with h | h <;> subst h <;>
          simp [logicHandler, truthy, hb, hkey, translate_text]
      rw [h1]
      exact ⟨rfl, fun _ => rfl, fun r hr hnot _ => absurd hr hnot⟩

theorem fingerprint_updated_first_witness :
    ("hf" ≠ "") ∧
    (({ role := "Doctor", last_processed_audio := none } : SessionState).last_processed_audio
      ≠ some [1, 2]) ∧
    (logicHandler (fun _ _ => "T") false "hf" "Room-1" "Spanish"
        { role := "Doctor", last_processed_audio := none }
        { rows := [], nextId := 1 } none (some [1, 2]) 7).state.last_processed_audio
      = some [1, 2] ∧
    (logicHandler (fun _ _ => "T") false "hf" "Room-1" "Spanish"
        { role := "Doctor", last_processed_audio := none }
        { rows := [], nextId := 1 } none (some [1, 2]) 7).db = { rows := [], nextId := 1 } :=
  ⟨by decide, by decide,
    (fingerprint_updated_first (fun _ _ => "T") false "hf" "Room-1" "Spanish" (by decide)
      { role := "Doctor", last_processed_audio := none } { rows := [], nextId := 1 }
      none [1, 2] (by decide) 7).1,
    (fingerprint_updated_first (fun _ _ => "T") false "hf" "Room-1" "Spanish" (by decide)
      { role := "Doctor", last_processed_audio := none } { rows := [], nextId := 1 }
      none [1, 2] (by decide) 7).2.1 rfl⟩

end NaoMed
